import Mathlib

/-!
Verification of the authenticated HTTP client of `src/frontend/src/lib/api.ts`
(openclawddashboard): the request interceptor that attaches bearer tokens and
the response interceptor that performs one-shot token refresh with request
replay.  The axios machinery is shallowly embedded: a request configuration is
a record, the session store is a record of two optional tokens, the network is
an oracle parameter, and the response-error handler is a pure function
returning the list of refresh calls it made, the final session store, whether
it redirected to the login page, and its result (replay, rejection, or a
thrown TypeError).
-/

namespace OpenClaw

/-- Headers of an HTTP request: the `Authorization` slot, kept separate
because the interceptors read and write it, plus all remaining headers. -/
structure Headers where
  authorization : Option String
  rest : List (String × String)
deriving Repr, DecidableEq

/-- An axios request configuration (`InternalAxiosRequestConfig` augmented
with the `_retry` boolean used by the response interceptor).  A JavaScript
request whose `_retry` property is still `undefined` is modelled with
`retry = false`: the code only ever tests its truthiness. -/
structure RequestConfig where
  method : String
  url : String
  headers : Headers
  body : Option String
  retry : Bool
deriving Repr, DecidableEq

/-- Modelled from the spec: the session-credential store (`useAuthStore` of
`src/frontend/src/stores/auth.ts`, which is not part of the provided source;
only its caller `api.ts` is).  Per the spec's data model it holds an access
token and a refresh token, both absent when anonymous. -/
structure AuthStore where
  accessToken : Option String
  refreshToken : Option String
deriving Repr, DecidableEq

/-- Modelled from the spec: `setTokens access refresh` replaces both
credential slots of the session store ("populated on login/registration,
replaced on refresh"). -/
def AuthStore.setTokens (_s : AuthStore) (access refresh : String) : AuthStore :=
  { accessToken := some access, refreshToken := some refresh }

/-- Modelled from the spec: `logout` clears all session credentials
("cleared on logout or irrecoverable refresh failure"). -/
def AuthStore.logout (_s : AuthStore) : AuthStore :=
  { accessToken := none, refreshToken := none }

/-- The request interceptor (`api.interceptors.request.use`, api.ts lines
14-23): read the current access token from the store; if present, set the
`Authorization` header to `Bearer <token>`; otherwise return the
configuration unchanged. -/
def requestInterceptor (store : AuthStore) (config : RequestConfig) : RequestConfig :=
  match store.accessToken with
  | some token =>
      { config with
          headers := { config.headers with authorization := some ("Bearer " ++ token) } }
  | none => config

/-- The error value handled by the response interceptor (`AxiosError`):
`error.response?.status` and `error.config` are both optional; `errorId`
stands for the identity of the JavaScript error object, so that "rejects
with the original error unchanged" is expressible. -/
structure AxiosErrorModel where
  responseStatus : Option Nat
  config : Option RequestConfig
  errorId : String
deriving Repr, DecidableEq

/-- Outcome of the `axios.post` call to the token-refresh endpoint: either a
2xx response whose body carries an `access` field, or a thrown error
(network failure or non-2xx status), identified by a string. -/
inductive RefreshOutcome where
  | success (access : String)
  | failure (errorId : String)
deriving Repr, DecidableEq

/-- A POST made to the token-refresh endpoint; its JSON body is
`\x7b refresh: <refresh> \x7d`. -/
structure RefreshCall where
  refresh : String
deriving Repr, DecidableEq

/-- The error a rejected promise carries back to the caller: the original
axios error, the synthetic `Error('No refresh token')`, or the error thrown
by the failed refresh call. -/
inductive RejectedError where
  | original (e : AxiosErrorModel)
  | noRefreshToken
  | refreshFailure (errorId : String)
deriving Repr, DecidableEq

/-- What the response-error handler hands back to the caller: the promise of
the re-dispatched request (`return api(originalRequest)`), a rejection
(`Promise.reject`), or a TypeError thrown while dereferencing `_retry` on an
absent `error.config`. -/
inductive HandlerResult where
  | replay (request : RequestConfig)
  | reject (e : RejectedError)
  | thrownTypeError
deriving Repr, DecidableEq

/-- Everything observable about one invocation of the response-error
handler: the refresh POSTs it issued, the session store it left behind, and
whether it set `window.location.href` to the login page. -/
structure HandlerOutcome where
  refreshCalls : List RefreshCall
  store : AuthStore
  redirectedToLogin : Bool
  result : HandlerResult
deriving Repr, DecidableEq

/-- The response-error handler of `api.interceptors.response.use` (api.ts
lines 27-61), as a pure function of the session store, the refresh-endpoint
oracle, and the incoming error.  It follows the source line by line: read
`error.config`; if the status is 401 the guard dereferences `_retry`, which
throws a TypeError when the config is absent; a 401 on a not-yet-retried
request marks it retried, then reads the refresh token (absent: throw the
synthetic error, caught below), POSTs the refresh token, and on success
stores the new access token alongside the unchanged refresh token, rewrites
the request's Authorization header and re-dispatches it; any throw inside
the try block lands in the catch: logout, redirect to `/login`, reject with
the refresh error.  Every other error is rejected unchanged. -/
def responseErrorHandler (store : AuthStore)
    (refreshEndpoint : String → RefreshOutcome)
    (error : AxiosErrorModel) : HandlerOutcome :=
  if error.responseStatus = some 401 then
    match error.config with
    | none =>
        { refreshCalls := [], store := store, redirectedToLogin := false,
          result := .thrownTypeError }
    | some originalRequest =>
        if originalRequest.retry then
          { refreshCalls := [], store := store, redirectedToLogin := false,
            result := .reject (.original error) }
        else
          let retried : RequestConfig := { originalRequest with retry := true }
          match store.refreshToken with
          | none =>
              { refreshCalls := [], store := store.logout, redirectedToLogin := true,
                result := .reject .noRefreshToken }
          | some refreshToken =>
              match refreshEndpoint refreshToken with
              | .success access =>
                  { refreshCalls := [⟨refreshToken⟩],
                    store := store.setTokens access refreshToken,
                    redirectedToLogin := false,
                    result := .replay { retried with
                      headers := { retried.headers with
                        authorization := some ("Bearer " ++ access) } } }
              | .failure errorId =>
                  { refreshCalls := [⟨refreshToken⟩], store := store.logout,
                    redirectedToLogin := true,
                    result := .reject (.refreshFailure errorId) }
  else
    { refreshCalls := [], store := store, redirectedToLogin := false,
      result := .reject (.original error) }

/-- The base URL default of api.ts line 4. -/
def API_URL : String := "http://localhost:8000"

/-- The request the interceptor's internal refresh sends (api.ts lines
42-44): a bare `axios.post`, not dispatched through the intercepted `api`
client, hence carrying no Authorization header regardless of session
state. -/
def interceptorRefreshRequest (refreshToken : String) : RequestConfig :=
  { method := "POST", url := API_URL ++ "/api/auth/refresh/",
    headers := { authorization := none, rest := [("Content-Type", "application/json")] },
    body := some refreshToken, retry := false }

/-- The request `authApi.refresh` (api.ts lines 72-73) actually sends: an
`api.post` through the intercepted client, so the request interceptor runs
on it before dispatch. -/
def authApiRefreshSentRequest (store : AuthStore) (refreshToken : String) : RequestConfig :=
  requestInterceptor store
    { method := "POST", url := "/auth/refresh/",
      headers := { authorization := none, rest := [("Content-Type", "application/json")] },
      body := some refreshToken, retry := false }

/-- Sample request configuration for witnesses. -/
def sampleCfg : RequestConfig :=
  { method := "GET", url := "/workspaces/",
    headers := { authorization := some "Bearer stale", rest := [] },
    body := none, retry := false }

/-- Sample 401 error carrying `sampleCfg`. -/
def sampleErr : AxiosErrorModel :=
  { responseStatus := some 401, config := some sampleCfg, errorId := "e401" }

/-- C6: for every request dispatched while an access token is present, the
pre-send hook attaches exactly one Authorization header valued
`Bearer <token>` and leaves everything else unchanged; with no access token
the request proceeds wholly unchanged; the hook is a total function and so
never fails. -/
theorem C6_request_hook_attaches_bearer :
    (∀ (store : AuthStore) (config : RequestConfig) (t : String),
        store.accessToken = some t →
        requestInterceptor store config =
          { config with headers :=
              { config.headers with authorization := some ("Bearer " ++ t) } }) ∧
    (∀ (store : AuthStore) (config : RequestConfig),
        store.accessToken = none → requestInterceptor store config = config) := by
  constructor
  · intro store config t h
    simp [requestInterceptor, h]
  · intro store config h
    simp [requestInterceptor, h]

/-- Witness for C6 at concrete inputs. -/
theorem C6_request_hook_attaches_bearer_witness :
    requestInterceptor { accessToken := some "tok", refreshToken := some "ref" } sampleCfg =
      { sampleCfg with headers :=
          { sampleCfg.headers with authorization := some ("Bearer " ++ "tok") } } ∧
    requestInterceptor { accessToken := none, refreshToken := none } sampleCfg = sampleCfg :=
  ⟨C6_request_hook_attaches_bearer.1 _ _ "tok" rfl,
   C6_request_hook_attaches_bearer.2 _ _ rfl⟩

/-- C9: whenever an access token is in session state at dispatch time, the
Authorization header actually sent is `Bearer <that token>`, for every
request configuration — in particular any preset Authorization header is
overwritten; specialised to a replayed request produced by the response
handler, the header written onto it before re-dispatch is superseded by the
session token at replay time. -/
theorem C9_sent_header_reflects_session_token :
    (∀ (store : AuthStore) (config : RequestConfig) (t : String),
        store.accessToken = some t →
        (requestInterceptor store config).headers.authorization = some ("Bearer " ++ t)) ∧
    (∀ (store store2 : AuthStore) (f : String → RefreshOutcome)
        (e : AxiosErrorModel) (req : RequestConfig) (t : String),
        (responseErrorHandler store f e).result = .replay req →
        store2.accessToken = some t →
        (requestInterceptor store2 req).headers.authorization = some ("Bearer " ++ t)) := by
  constructor
  · intro store config t h
    simp [requestInterceptor, h]
  · intro store store2 f e req t _ h
    simp [requestInterceptor, h]

/-- Witness for C9: a replay produced by a successful refresh, re-dispatched
while the session holds a different token, is sent with that session token. -/
theorem C9_sent_header_reflects_session_token_witness :
    (requestInterceptor { accessToken := some "t1", refreshToken := some "r" }
        sampleCfg).headers.authorization = some ("Bearer " ++ "t1") ∧
    (requestInterceptor { accessToken := some "t2", refreshToken := some "r" }
        { sampleCfg with
          retry := true
          headers := { sampleCfg.headers with
            authorization := some ("Bearer " ++ "newer") } }).headers.authorization =
      some ("Bearer " ++ "t2") :=
  ⟨C9_sent_header_reflects_session_token.1 _ sampleCfg "t1" rfl,
   C9_sent_header_reflects_session_token.2
     { accessToken := some "old", refreshToken := some "r" }
     { accessToken := some "t2", refreshToken := some "r" }
     (fun _ => .success "newer") sampleErr _ "t2" (by decide) rfl⟩

/-- C10: a 401 error that carries no request config makes the handler
dereference `_retry` on `undefined`, so it throws a TypeError and the caller
receives that TypeError instead of the original error; conversely whenever
the error does carry a config, the handler never throws (it settles by
replay or rejection). -/
theorem C10_missing_config_throws_type_error :
    (∀ (store : AuthStore) (f : String → RefreshOutcome) (e : AxiosErrorModel),
        e.responseStatus = some 401 → e.config = none →
        responseErrorHandler store f e =
          { refreshCalls := [], store := store, redirectedToLogin := false,
            result := .thrownTypeError }) ∧
    (∀ (store : AuthStore) (f : String → RefreshOutcome) (e : AxiosErrorModel)
        (cfg : RequestConfig), e.config = some cfg →
        (responseErrorHandler store f e).result ≠ .thrownTypeError) := by
  constructor
  · intro store f e hs hc
    obtain ⟨status, config, i⟩ := e
    simp only at hs hc
    subst hs; subst hc
    simp [responseErrorHandler]
  · intro store f e cfg hc
    obtain ⟨status, config, i⟩ := e
    simp only at hc
    subst hc
    by_cases h : status = some 401
    · subst h
      cases hr : cfg.retry
      · cases ht : store.refreshToken with
        | none => simp [responseErrorHandler, hr, ht]
        | some rt => cases hf : f rt <;> simp [responseErrorHandler, hr, ht, hf]
      · simp [responseErrorHandler, hr]
    · simp [responseErrorHandler, h]

/-- Witness for C10 at a concrete config-less 401 error and at `sampleErr`. -/
theorem C10_missing_config_throws_type_error_witness :
    responseErrorHandler { accessToken := some "a", refreshToken := some "r" }
        (fun _ => .success "na")
        { responseStatus := some 401, config := none, errorId := "bare401" } =
      { refreshCalls := [],
        store := { accessToken := some "a", refreshToken := some "r" },
        redirectedToLogin := false, result := .thrownTypeError } ∧
    (responseErrorHandler { accessToken := some "a", refreshToken := some "r" }
        (fun _ => .success "na") sampleErr).result ≠ .thrownTypeError :=
  ⟨C10_missing_config_throws_type_error.1 _ (fun _ => .success "na") _ rfl rfl,
   C10_missing_config_throws_type_error.2 _ (fun _ => .success "na") sampleErr sampleCfg rfl⟩

/-- C3: every error that is not a 401 response, and every 401 whose request
is already marked retried, passes through untouched — no refresh call, no
session mutation, no redirect, rejection with the original error. -/
theorem C3_non_401_and_retried_pass_through (store : AuthStore)
    (f : String → RefreshOutcome) (e : AxiosErrorModel)
    (h : e.responseStatus ≠ some 401 ∨ ∃ cfg, e.config = some cfg ∧ cfg.retry = true) :
    responseErrorHandler store f e =
      { refreshCalls := [], store := store, redirectedToLogin := false,
        result := .reject (.original e) } := by
  obtain ⟨status, config, i⟩ := e
  rcases h with h | ⟨cfg, hc, hr⟩
  · simp only at h
    simp [responseErrorHandler, h]
  · simp only at hc
    subst hc
    by_cases hs : status = some 401
    · subst hs
      simp [responseErrorHandler, hr]
    · simp [responseErrorHandler, hs]

/-- Witness for C3: a 500 error and an already-retried 401 both pass
through unchanged. -/
theorem C3_non_401_and_retried_pass_through_witness :
    responseErrorHandler { accessToken := some "a", refreshToken := some "r" }
        (fun _ => .success "na")
        { responseStatus := some 500, config := some sampleCfg, errorId := "e500" } =
      { refreshCalls := [],
        store := { accessToken := some "a", refreshToken := some "r" },
        redirectedToLogin := false,
        result := .reject (.original
          { responseStatus := some 500, config := some sampleCfg, errorId := "e500" }) } ∧
    responseErrorHandler { accessToken := some "a", refreshToken := some "r" }
        (fun _ => .success "na")
        { responseStatus := some 401, config := some { sampleCfg with retry := true },
          errorId := "e401b" } =
      { refreshCalls := [],
        store := { accessToken := some "a", refreshToken := some "r" },
        redirectedToLogin := false,
        result := .reject (.original
          { responseStatus := some 401, config := some { sampleCfg with retry := true },
            errorId := "e401b" }) } :=
  ⟨C3_non_401_and_retried_pass_through _ _ _ (Or.inl (by decide)),
   C3_non_401_and_retried_pass_through _ _ _
     (Or.inr ⟨{ sampleCfg with retry := true }, rfl, rfl⟩)⟩

/-- C4: a first 401 while no refresh token is in session state contacts no
server: zero refresh calls, the session is cleared, the redirect side
effect fires, and the caller receives the synthetic no-refresh-token
error. -/
theorem C4_missing_refresh_token_is_terminal (store : AuthStore)
    (f : String → RefreshOutcome) (e : AxiosErrorModel) (cfg : RequestConfig)
    (hs : e.responseStatus = some 401) (hc : e.config = some cfg)
    (hr : cfg.retry = false) (ht : store.refreshToken = none) :
    responseErrorHandler store f e =
      { refreshCalls := [], store := { accessToken := none, refreshToken := none },
        redirectedToLogin := true, result := .reject .noRefreshToken } := by
  obtain ⟨status, config, i⟩ := e
  simp only at hs hc
  subst hs; subst hc
  simp [responseErrorHandler, hr, ht, AuthStore.logout]

/-- Witness for C4 at a concrete anonymous-refresh session. -/
theorem C4_missing_refresh_token_is_terminal_witness :
    responseErrorHandler { accessToken := some "a", refreshToken := none }
        (fun _ => .success "na") sampleErr =
      { refreshCalls := [], store := { accessToken := none, refreshToken := none },
        redirectedToLogin := true, result := .reject .noRefreshToken } :=
  C4_missing_refresh_token_is_terminal _ _ sampleErr sampleCfg rfl rfl rfl rfl

/-- C1: a first 401 with a refresh token present and a refresh endpoint that
accepts it triggers exactly one POST to the refresh endpoint carrying that
refresh token, stores the `access` field of the response as the new access
token, and hands the caller the replay of the original request — marked
retried and carrying the new bearer token — instead of the original 401. -/
theorem C1_refresh_then_replay (store : AuthStore) (f : String → RefreshOutcome)
    (e : AxiosErrorModel) (cfg : RequestConfig) (rt access : String)
    (hs : e.responseStatus = some 401) (hc : e.config = some cfg)
    (hr : cfg.retry = false) (ht : store.refreshToken = some rt)
    (hf : f rt = .success access) :
    responseErrorHandler store f e =
      { refreshCalls := [{ refresh := rt }]
        store := { accessToken := some access, refreshToken := some rt }
        redirectedToLogin := false
        result := .replay { cfg with
          retry := true
          headers := { cfg.headers with
            authorization := some ("Bearer " ++ access) } } } := by
  obtain ⟨status, config, i⟩ := e
  simp only at hs hc
  subst hs; subst hc
  simp [responseErrorHandler, hr, ht, hf, AuthStore.setTokens]

/-- Witness for C1 at a concrete session and accepting refresh endpoint. -/
theorem C1_refresh_then_replay_witness :
    responseErrorHandler { accessToken := some "old", refreshToken := some "rtok" }
        (fun _ => .success "fresh") sampleErr =
      { refreshCalls := [{ refresh := "rtok" }]
        store := { accessToken := some "fresh", refreshToken := some "rtok" }
        redirectedToLogin := false
        result := .replay { sampleCfg with
          retry := true
          headers := { sampleCfg.headers with
            authorization := some ("Bearer " ++ "fresh") } } } :=
  C1_refresh_then_replay _ _ sampleErr sampleCfg "rtok" "fresh" rfl rfl rfl rfl rfl

/-- C2: when the refresh attempt itself fails — the refresh token is absent
(the synthetic error) or the refresh endpoint call throws — the session is
cleared, the redirect-to-login side effect fires, and the caller receives
the refresh error, never the original 401. -/
theorem C2_refresh_failure_forces_logout (store : AuthStore)
    (f : String → RefreshOutcome) (e : AxiosErrorModel) (cfg : RequestConfig)
    (hs : e.responseStatus = some 401) (hc : e.config = some cfg)
    (hr : cfg.retry = false)
    (hfail : store.refreshToken = none ∨
      ∃ rt err, store.refreshToken = some rt ∧ f rt = .failure err) :
    (responseErrorHandler store f e).store =
      { accessToken := none, refreshToken := none } ∧
    (responseErrorHandler store f e).redirectedToLogin = true ∧
    (responseErrorHandler store f e).result ≠ .reject (.original e) ∧
    ((responseErrorHandler store f e).result = .reject .noRefreshToken ∨
      ∃ err, (responseErrorHandler store f e).result = .reject (.refreshFailure err)) := by
  obtain ⟨status, config, i⟩ := e
  simp only at hs hc
  subst hs; subst hc
  rcases hfail with ht | ⟨rt, err, ht, hf⟩
  · simp [responseErrorHandler, hr, ht, AuthStore.logout]
  · simp [responseErrorHandler, hr, ht, hf, AuthStore.logout]

/-- Witness for C2 at a concrete rejecting refresh endpoint. -/
theorem C2_refresh_failure_forces_logout_witness :
    (responseErrorHandler { accessToken := some "a", refreshToken := some "rtok" }
        (fun _ => .failure "refresh401") sampleErr).store =
      { accessToken := none, refreshToken := none } ∧
    (responseErrorHandler { accessToken := some "a", refreshToken := some "rtok" }
        (fun _ => .failure "refresh401") sampleErr).redirectedToLogin = true ∧
    (responseErrorHandler { accessToken := some "a", refreshToken := some "rtok" }
        (fun _ => .failure "refresh401") sampleErr).result ≠
      .reject (.original sampleErr) ∧
    ((responseErrorHandler { accessToken := some "a", refreshToken := some "rtok" }
        (fun _ => .failure "refresh401") sampleErr).result = .reject .noRefreshToken ∨
      ∃ err, (responseErrorHandler { accessToken := some "a", refreshToken := some "rtok" }
        (fun _ => .failure "refresh401") sampleErr).result =
          .reject (.refreshFailure err)) :=
  C2_refresh_failure_forces_logout _ _ sampleErr sampleCfg rfl rfl rfl
    (Or.inr ⟨"rtok", "refresh401", rfl, rfl⟩)

/-- C5: per handler invocation at most one refresh POST is issued; every
replayed request the handler emits already carries the retried flag, so a
later 401 on it reaches the already-retried branch; and a 401 whose request
is marked retried triggers zero refresh calls — no infinite refresh loop. -/
theorem C5_at_most_one_refresh_per_request :
    (∀ (store : AuthStore) (f : String → RefreshOutcome) (e : AxiosErrorModel),
        (responseErrorHandler store f e).refreshCalls.length ≤ 1) ∧
    (∀ (store : AuthStore) (f : String → RefreshOutcome) (e : AxiosErrorModel)
        (req : RequestConfig),
        (responseErrorHandler store f e).result = .replay req → req.retry = true) ∧
    (∀ (store : AuthStore) (f : String → RefreshOutcome) (e : AxiosErrorModel)
        (cfg : RequestConfig), e.config = some cfg → cfg.retry = true →
        (responseErrorHandler store f e).refreshCalls = []) := by
  refine ⟨?_, ?_, ?_⟩
  · intro store f e
    obtain ⟨status, config, i⟩ := e
    by_cases h : status = some 401
    · subst h
      cases config with
      | none => simp [responseErrorHandler]
      | some cfg =>
        cases hr : cfg.retry
        · cases ht : store.refreshToken with
          | none => simp [responseErrorHandler, hr, ht]
          | some rt => cases hf : f rt <;> simp [responseErrorHandler, hr, ht, hf]
        · simp [responseErrorHandler, hr]
    · simp [responseErrorHandler, h]
  · intro store f e req hrep
    obtain ⟨status, config, i⟩ := e
    by_cases h : status = some 401
    · subst h
      cases config with
      | none => simp [responseErrorHandler] at hrep
      | some cfg =>
        cases hr : cfg.retry
        · cases ht : store.refreshToken with
          | none => simp [responseErrorHandler, hr, ht] at hrep
          | some rt =>
            cases hf : f rt with
            | success access =>
                simp [responseErrorHandler, hr, ht, hf] at hrep
                subst hrep
                rfl
            | failure err => simp [responseErrorHandler, hr, ht, hf] at hrep
        · simp [responseErrorHandler, hr] at hrep
    · simp [responseErrorHandler, h] at hrep
  · intro store f e cfg hc hr
    obtain ⟨status, config, i⟩ := e
    simp only at hc
    subst hc
    by_cases h : status = some 401
    · subst h
      simp [responseErrorHandler, hr]
    · simp [responseErrorHandler, h]

/-- Witness for C5: one handler run at a concrete input makes at most one
refresh call, its replay is flag-marked, and an already-retried 401 makes
none. -/
theorem C5_at_most_one_refresh_per_request_witness :
    (responseErrorHandler { accessToken := some "a", refreshToken := some "rtok" }
        (fun _ => .success "fresh") sampleErr).refreshCalls.length ≤ 1 ∧
    RequestConfig.retry { sampleCfg with
      retry := true
      headers := { sampleCfg.headers with
        authorization := some ("Bearer " ++ "fresh") } } = true ∧
    (responseErrorHandler { accessToken := some "a", refreshToken := some "rtok" }
        (fun _ => .success "fresh")
        { responseStatus := some 401, config := some { sampleCfg with retry := true },
          errorId := "e401b" }).refreshCalls = [] :=
  ⟨C5_at_most_one_refresh_per_request.1 _ (fun _ => .success "fresh") sampleErr,
   C5_at_most_one_refresh_per_request.2.1 { accessToken := some "a", refreshToken := some "rtok" }
     (fun _ => .success "fresh") sampleErr _ (by decide),
   C5_at_most_one_refresh_per_request.2.2 _ (fun _ => .success "fresh") _
     { sampleCfg with retry := true } rfl rfl⟩

/-- C7: a successful refresh replaces only the access token; the refresh
token written back to the store is the very refresh token read before the
call — single-token rotation. -/
theorem C7_refresh_token_not_rotated (store : AuthStore)
    (f : String → RefreshOutcome) (e : AxiosErrorModel) (cfg : RequestConfig)
    (rt access : String)
    (hs : e.responseStatus = some 401) (hc : e.config = some cfg)
    (hr : cfg.retry = false) (ht : store.refreshToken = some rt)
    (hf : f rt = .success access) :
    (responseErrorHandler store f e).store.accessToken = some access ∧
    (responseErrorHandler store f e).store.refreshToken = store.refreshToken := by
  obtain ⟨status, config, i⟩ := e
  simp only at hs hc
  subst hs; subst hc
  simp [responseErrorHandler, hr, ht, hf, AuthStore.setTokens]

/-- Witness for C7 at a concrete successful refresh. -/
theorem C7_refresh_token_not_rotated_witness :
    (responseErrorHandler { accessToken := some "old", refreshToken := some "rtok" }
        (fun _ => .success "fresh") sampleErr).store.accessToken = some "fresh" ∧
    (responseErrorHandler { accessToken := some "old", refreshToken := some "rtok" }
        (fun _ => .success "fresh") sampleErr).store.refreshToken =
      AuthStore.refreshToken { accessToken := some "old", refreshToken := some "rtok" } :=
  C7_refresh_token_not_rotated _ _ sampleErr sampleCfg "rtok" "fresh" rfl rfl rfl rfl rfl

/-- C8: the interceptor's internal refresh goes through bare axios, so the
request it sends never carries an Authorization header, and when the refresh
endpoint rejects (for example with its own 401) the handler terminates with
logout and a rejection after exactly that one refresh call — the failure
cannot re-enter the refresh path; whereas `authApi.refresh` dispatches
through the intercepted client, so with an access token in session state the
request it sends carries `Bearer <token>`. -/
theorem C8_internal_refresh_uses_bare_client :
    (∀ rt : String, (interceptorRefreshRequest rt).headers.authorization = none) ∧
    (∀ (store : AuthStore) (rt t : String), store.accessToken = some t →
        (authApiRefreshSentRequest store rt).headers.authorization =
          some ("Bearer " ++ t)) ∧
    (∀ (store : AuthStore) (f : String → RefreshOutcome) (e : AxiosErrorModel)
        (cfg : RequestConfig) (rt err : String),
        e.responseStatus = some 401 → e.config = some cfg → cfg.retry = false →
        store.refreshToken = some rt → f rt = .failure err →
        responseErrorHandler store f e =
          { refreshCalls := [{ refresh := rt }]
            store := { accessToken := none, refreshToken := none }
            redirectedToLogin := true
            result := .reject (.refreshFailure err) }) := by
  refine ⟨?_, ?_, ?_⟩
  · intro rt
    rfl
  · intro store rt t h
    simp [authApiRefreshSentRequest, requestInterceptor, h]
  · intro store f e cfg rt err hs hc hr ht hf
    obtain ⟨status, config, i⟩ := e
    simp only at hs hc
    subst hs; subst hc
    simp [responseErrorHandler, hr, ht, hf, AuthStore.logout]

/-- Witness for C8 at concrete tokens and a rejecting refresh endpoint. -/
theorem C8_internal_refresh_uses_bare_client_witness :
    (interceptorRefreshRequest "rtok").headers.authorization = none ∧
    (authApiRefreshSentRequest { accessToken := some "tok", refreshToken := some "rtok" }
        "rtok").headers.authorization = some ("Bearer " ++ "tok") ∧
    responseErrorHandler { accessToken := some "tok", refreshToken := some "rtok" }
        (fun _ => .failure "refresh401") sampleErr =
      { refreshCalls := [{ refresh := "rtok" }]
        store := { accessToken := none, refreshToken := none }
        redirectedToLogin := true
        result := .reject (.refreshFailure "refresh401") } :=
  ⟨C8_internal_refresh_uses_bare_client.1 "rtok",
   C8_internal_refresh_uses_bare_client.2.1 _ "rtok" "tok" rfl,
   C8_internal_refresh_uses_bare_client.2.2 _ _ sampleErr sampleCfg "rtok" "refresh401"
     rfl rfl rfl rfl rfl⟩

end OpenClaw
